import Mathlib

/-!
# Verification of the M-Pesa LNMO payment reconciliation core (`src/lnmo.py`)

Shallow embedding of the payment-transaction reconciliation core of the
`ericomondi/e-api` repository: the transaction ledger data model, the gateway
client (`LNMORepository`), the initiate / query operations, the callback
handler `payment_callback`, and the pydantic request models of
`src/pydantic_models.py` together with pydantic's field-name-based validation
of incoming JSON bodies.

External effects (the HTTP calls made through `requests`, and the wall clock
read through `datetime.now()`) are passed in explicitly as a `GatewayWorld`
value describing the outcome of each outbound call and each clock read, in
the order the source performs them.  The database session is modelled as the
committed store: mutations become visible only at `db.commit()`; an exception
raised before the commit leaves the committed store unchanged (per the
source's per-request session and the spec's "transactional per operation"
record-store model).
-/

/-- A JSON value, used for raw gateway response bodies, raw callback request
bodies, and the `_feedback` audit blobs stored on transactions. -/
inductive Json where
  | null : Json
  | str (s : String) : Json
  | num (n : Int) : Json
  | bool (b : Bool) : Json
  | arr (elems : List Json) : Json
  | obj (fields : List (String × Json)) : Json

/-- Python `dict.get(key)` on a JSON object: the value at the first matching
key, `none` when the key is missing. -/
def jsonLookup : List (String × Json) → String → Option Json
  | [], _ => none
  | (k, v) :: rest, key => if k = key then some v else jsonLookup rest key

/-- `response_data.get(key)` on a parsed JSON body (non-objects have no keys). -/
def Json.get (j : Json) (key : String) : Option Json :=
  match j with
  | .obj fields => jsonLookup fields key
  | _ => none

/-- `response_data.get(key)` when the value is expected to be a JSON string
(the gateway's `CheckoutRequestID` is a string per the wire contract). -/
def Json.getStr (j : Json) (key : String) : Option String :=
  match j.get key with
  | some (.str s) => some s
  | _ => none

/-- Modelled from the spec: the `TransactionStatus` enum of the repository's
`models.py` (imported by `src/lnmo.py` but not itself part of the sources);
its five values are listed in spec section 3 and mirrored by the
`TransactionStatus` enum of `src/pydantic_models.py` lines 201-206. -/
inductive TransactionStatus where
  | PENDING | PROCESSING | PROCESSED | REJECTED | ACCEPTED
  deriving DecidableEq, Repr

/-- Modelled from the spec: the `Transaction` row of the repository's
`models.py` (imported, not in the sources).  Fields are exactly those the
constructor call at `src/lnmo.py` lines 111-128 populates, with the types of
`TransactionResponse` (`src/pydantic_models.py` lines 221-238); the Decimal
amount is modelled as an integer because no claim inspects fractional
amounts. -/
structure Transaction where
  id : Nat
  pid : Nat
  party_a : String
  party_b : String
  account_reference : String
  transaction_category : Nat
  transaction_type : Nat
  transaction_channel : Nat
  transaction_aggregator : Nat
  transaction_id : Option String
  transaction_amount : Int
  transaction_code : Option String
  transaction_timestamp : String
  transaction_details : String
  feedback : Json
  status : TransactionStatus
  user_id : Nat

/-- Modelled from the spec: the `Orders` row (external collaborator entity,
spec section 3) — only the fields `src/lnmo.py` lines 70-73 filter on. -/
structure Order where
  order_id : Nat
  user_id : Nat
  deriving DecidableEq, Repr

/-- The committed record store: the orders table and the transactions table
(in insertion order; the surrogate `id` of a new row is the current row
count). -/
structure DB where
  orders : List Order
  transactions : List Transaction

/-- Configuration of `LNMORepository.__init__` (`src/lnmo.py` lines 30-36):
the fields the claims depend on. -/
structure LNMOConfig where
  MPESA_LNMO_PASS_KEY : String
  MPESA_LNMO_SHORT_CODE : String
  CALLBACK_URL : String

/-- Outcome of the external world during one request: the result of
`generate_access_token` (line 82 / 152), the body of a 2xx reply to the STK
push POST (line 106-108; `none` models a `requests.RequestException` /
non-2xx), likewise for the status-query POST (line 169-172), and the
successive `datetime.now().strftime("%Y%m%d%H%M%S")` reads, indexed by call
order within the request. -/
structure GatewayWorld where
  accessToken : Option String
  pushResponse : Option Json
  queryResponse : Option Json
  now : Nat → String

/-- The base64 alphabet used by `base64.b64encode`. -/
def base64Alphabet : List Char :=
  "ABCDEFGHIJKLMNOPQRSTUVWXYZabcdefghijklmnopqrstuvwxyz0123456789+/".data

/-- The base64 digit for a 6-bit group. -/
def b64Char (n : Nat) : Char := base64Alphabet.getD n 'A'

/-- Standard base64 of a byte sequence (RFC 4648, with padding), as
`base64.b64encode` computes it. -/
def base64EncodeBytes : List Nat → List Char
  | [] => []
  | [b1] => [b64Char (b1 / 4), b64Char (b1 % 4 * 16), '=', '=']
  | [b1, b2] =>
      [b64Char (b1 / 4), b64Char (b1 % 4 * 16 + b2 / 16), b64Char (b2 % 16 * 4), '=']
  | b1 :: b2 :: b3 :: rest =>
      b64Char (b1 / 4) :: b64Char (b1 % 4 * 16 + b2 / 16) ::
        b64Char (b2 % 16 * 4 + b3 / 64) :: b64Char (b3 % 64) :: base64EncodeBytes rest

/-- `base64.b64encode(s.encode()).decode()` for an ASCII string (all inputs
the source encodes — short code, pass key, `YYYYMMDDHHMMSS` timestamps — are
ASCII, so UTF-8 bytes coincide with code points). -/
def base64Encode (s : String) : String :=
  String.mk (base64EncodeBytes (s.data.map Char.toNat))

/-- `LNMORepository.generate_password` (`src/lnmo.py` lines 54-64): reads the
clock once (`ts`) and returns `base64(shortCode + passKey + timestamp)`. -/
def generate_password (cfg : LNMOConfig) (ts : String) : String :=
  base64Encode (cfg.MPESA_LNMO_SHORT_CODE ++ cfg.MPESA_LNMO_PASS_KEY ++ ts)

/-- The `TransactionRequest` body of `POST /lnmo/transact`
(`src/pydantic_models.py` lines 208-211). -/
structure TransactionRequest where
  amount : Int
  phone_number : String
  order_id : Nat
  deriving DecidableEq, Repr

/-- The STK push request payload built at `src/lnmo.py` lines 92-104.  The
dict literal evaluates top to bottom, so `generate_password` consumes clock
read 0 and the `Timestamp` field is clock read 1 — two distinct
`datetime.now()` calls. -/
structure PushPayload where
  businessShortCode : String
  password : String
  timestamp : String
  transactionType : String
  amount : String
  partyA : String
  partyB : String
  phoneNumber : String
  callBackURL : String
  accountReference : String
  transactionDesc : String

/-- Builds the push payload of `src/lnmo.py` lines 92-104 (the endpoint
`initiate_payment`, lines 192-196, passes `AccountReference =
str(order_id)`, `PhoneNumber = phone_number`, `Amount = amount`). -/
def buildPushPayload (cfg : LNMOConfig) (world : GatewayWorld)
    (data : TransactionRequest) : PushPayload :=
  { businessShortCode := cfg.MPESA_LNMO_SHORT_CODE
    password := generate_password cfg (world.now 0)
    timestamp := world.now 1
    transactionType := "CustomerPayBillOnline"
    amount := toString data.amount
    partyA := data.phone_number
    partyB := cfg.MPESA_LNMO_SHORT_CODE
    phoneNumber := data.phone_number
    callBackURL := cfg.CALLBACK_URL
    accountReference := toString data.order_id
    transactionDesc := "Payment for order " ++ toString data.order_id }

/-- `db.query(Orders).filter(order_id == ..., user_id == ...).first()`
(`src/lnmo.py` lines 70-73). -/
def findOrder : List Order → Nat → Nat → Option Order
  | [], _, _ => none
  | o :: rest, oid, uid =>
      if o.order_id = oid ∧ o.user_id = uid then some o else findOrder rest oid uid

/-- The failure modes of `initiate_transaction`: the 404 for a missing or
foreign order (line 76), the 500 for a missing access token (line 85), and
the 500 for a failed gateway call (line 143).  (The outer
`except Exception` at line 144 re-wraps the first two as generic 500s; the
error cause is what is modelled.) -/
inductive InitError where
  | orderNotFound | tokenFailed | gatewayUnavailable
  deriving DecidableEq, Repr

/-- The success value returned by `initiate_transaction`
(`src/lnmo.py` lines 135-139). -/
structure InitiateResult where
  transaction_id : Nat
  checkout_request_id : Option String
  response_data : Json

/-- `LNMORepository.initiate_transaction` (`src/lnmo.py` lines 66-146),
composed with the endpoint's argument marshalling (lines 192-198): validate
order ownership, acquire a token, post the push payload (its 2xx body, if
any, is `world.pushResponse`), and only then build, add and commit the new
`Transaction` row.  The returned `DB` is the committed store: every error
path leaves it untouched because the row is created only after a successful
gateway response. -/
def initiate_transaction (cfg : LNMOConfig) (world : GatewayWorld)
    (data : TransactionRequest) (st : DB) (user_id : Nat) :
    Except InitError InitiateResult × DB :=
  match findOrder st.orders data.order_id user_id with
  | none => (.error .orderNotFound, st)
  | some _order =>
    match world.accessToken with
    | none => (.error .tokenFailed, st)
    | some _token =>
      match world.pushResponse with
      | none => (.error .gatewayUnavailable, st)
      | some response_data =>
        let cid := response_data.getStr "CheckoutRequestID"
        let transaction : Transaction :=
          { id := st.transactions.length
            pid := data.order_id
            party_a := data.phone_number
            party_b := cfg.MPESA_LNMO_SHORT_CODE
            account_reference := toString data.order_id
            transaction_category := 0
            transaction_type := 1
            transaction_channel := 1
            transaction_aggregator := 0
            transaction_id := cid
            transaction_amount := data.amount
            transaction_code := none
            transaction_timestamp := world.now 2
            transaction_details := "Payment for order " ++ toString data.order_id
            feedback := response_data
            status := TransactionStatus.PROCESSING
            user_id := user_id }
        (.ok { transaction_id := transaction.id
               checkout_request_id := cid
               response_data := response_data },
         { st with transactions := st.transactions ++ [transaction] })

/-- `CallbackMetadataItem` (`src/pydantic_models.py` lines 244-246): field
names `name` and `value`, the latter `Optional[str]` defaulting to `None`. -/
structure CallbackMetadataItem where
  name : String
  value : Option String
  deriving DecidableEq, Repr

/-- `CallbackMetadata` (`src/pydantic_models.py` lines 248-249): field name
`item`. -/
structure CallbackMetadata where
  item : List CallbackMetadataItem
  deriving DecidableEq, Repr

/-- `StkCallback` (`src/pydantic_models.py` lines 251-256): camelCase field
names, `callbackMetadata` an `Optional` defaulting to `None`. -/
structure StkCallback where
  merchantRequestID : String
  checkoutRequestID : String
  resultCode : Int
  resultDesc : String
  callbackMetadata : Option CallbackMetadata
  deriving DecidableEq, Repr

/-- `CallbackBody` (`src/pydantic_models.py` lines 258-259): field name
`stkCallback`. -/
structure CallbackBody where
  stkCallback : StkCallback
  deriving DecidableEq, Repr

/-- `CallbackRequest` (`src/pydantic_models.py` lines 261-262): field name
`body` (lower case). -/
structure CallbackRequest where
  body : CallbackBody
  deriving DecidableEq, Repr

/-- `CallbackMetadataItem.dict()`: pydantic serialises by field name. -/
def CallbackMetadataItem.dict (it : CallbackMetadataItem) : Json :=
  .obj [("name", .str it.name),
        ("value", match it.value with | some v => .str v | none => .null)]

/-- `CallbackMetadata.dict()`. -/
def CallbackMetadata.dict (m : CallbackMetadata) : Json :=
  .obj [("item", .arr (m.item.map CallbackMetadataItem.dict))]

/-- `StkCallback.dict()`. -/
def StkCallback.dict (s : StkCallback) : Json :=
  .obj [("merchantRequestID", .str s.merchantRequestID),
        ("checkoutRequestID", .str s.checkoutRequestID),
        ("resultCode", .num s.resultCode),
        ("resultDesc", .str s.resultDesc),
        ("callbackMetadata",
          match s.callbackMetadata with | some m => m.dict | none => .null)]

/-- `callback_data.dict()` (`src/lnmo.py` line 279): the full raw callback
payload as stored into the `_feedback` column. -/
def CallbackRequest.dict (c : CallbackRequest) : Json :=
  .obj [("body", .obj [("stkCallback", c.body.stkCallback.dict)])]

/-- Sequences a parser over a list of JSON values; any element failing
validation fails the whole list (pydantic `List[...]` validation). -/
def parseAll (f : Json → Option α) : List Json → Option (List α)
  | [] => some []
  | j :: rest =>
    match f j with
    | none => none
    | some a =>
      match parseAll f rest with
      | none => none
      | some as' => some (a :: as')

/-- Pydantic validation of `CallbackMetadataItem` from a JSON object: each
field is looked up under its exact (case-sensitive) field name — the models
declare no aliases — missing `Optional` fields take their default, a missing
required field or a non-object fails validation, and extra keys are
ignored. -/
def parseCallbackMetadataItem (j : Json) : Option CallbackMetadataItem :=
  match j with
  | .obj fields =>
    match jsonLookup fields "name" with
    | some (.str n) =>
      match jsonLookup fields "value" with
      | some (.str v) => some { name := n, value := some v }
      | some .null => some { name := n, value := none }
      | none => some { name := n, value := none }
      | some _ => none
    | _ => none
  | _ => none

/-- Pydantic validation of `CallbackMetadata` (requires key `item`, a list). -/
def parseCallbackMetadata (j : Json) : Option CallbackMetadata :=
  match j with
  | .obj fields =>
    match jsonLookup fields "item" with
    | some (.arr elems) =>
      match parseAll parseCallbackMetadataItem elems with
      | some items => some { item := items }
      | none => none
    | _ => none
  | _ => none

/-- Pydantic validation of `StkCallback` (requires keys `merchantRequestID`,
`checkoutRequestID`, `resultCode`, `resultDesc`; `callbackMetadata` is
optional with default `None`). -/
def parseStkCallback (j : Json) : Option StkCallback :=
  match j with
  | .obj fields =>
    match jsonLookup fields "merchantRequestID", jsonLookup fields "checkoutRequestID",
          jsonLookup fields "resultCode", jsonLookup fields "resultDesc" with
    | some (.str mid), some (.str cid), some (.num rc), some (.str rd) =>
      match jsonLookup fields "callbackMetadata" with
      | none =>
          some { merchantRequestID := mid, checkoutRequestID := cid,
                 resultCode := rc, resultDesc := rd, callbackMetadata := none }
      | some .null =>
          some { merchantRequestID := mid, checkoutRequestID := cid,
                 resultCode := rc, resultDesc := rd, callbackMetadata := none }
      | some mj =>
        match parseCallbackMetadata mj with
        | some md =>
            some { merchantRequestID := mid, checkoutRequestID := cid,
                   resultCode := rc, resultDesc := rd, callbackMetadata := some md }
        | none => none
    | _, _, _, _ => none
  | _ => none

/-- Pydantic validation of `CallbackBody` (requires key `stkCallback`). -/
def parseCallbackBody (j : Json) : Option CallbackBody :=
  match j with
  | .obj fields =>
    match jsonLookup fields "stkCallback" with
    | some sj =>
      match parseStkCallback sj with
      | some s => some { stkCallback := s }
      | none => none
    | none => none
  | _ => none

/-- Pydantic/FastAPI validation of the `POST /lnmo/callback` request body
against `CallbackRequest` (requires key `body`, lower case — the model
declares the field `body` with no alias). `none` means the request is
rejected with a 422 validation error before `payment_callback` runs. -/
def parseCallbackRequest (j : Json) : Option CallbackRequest :=
  match j with
  | .obj fields =>
    match jsonLookup fields "body" with
    | some bj =>
      match parseCallbackBody bj with
      | some b => some { body := b }
      | none => none
    | none => none
  | _ => none

/-- The JSON envelope `payment_callback` returns (always with HTTP 200,
per the route's `status_code=status.HTTP_200_OK`). -/
structure CallbackEnvelope where
  status : String
  message : String
  deriving DecidableEq, Repr

/-- `db.query(Transaction).filter(Transaction.transaction_id ==
checkout_request_id).first()` (`src/lnmo.py` lines 258-260), returning the
row's position together with the row so the subsequent commit can be
modelled as an in-place update. -/
def findFirstTxn : List Transaction → String → Option (Nat × Transaction)
  | [], _ => none
  | t :: rest, cid =>
    if t.transaction_id = some cid then some (0, t)
    else
      match findFirstTxn rest cid with
      | some (i, u) => some (i + 1, u)
      | none => none

/-- `hasattr(callback_data.body.stkCallback, 'callbackMetadata')`
(`src/lnmo.py` line 269).  `callbackMetadata` is a declared pydantic field
with default `None` (`src/pydantic_models.py` line 256), so the attribute
always exists and `hasattr` is constantly true — including when the field's
value is `None`. -/
def hasattr_callbackMetadata (_ : StkCallback) : Bool := true

/-- The successful-result update of the matched transaction
(`src/lnmo.py` lines 268-274 and 279): set status `ACCEPTED`, scan the
metadata items for the first one named `MpesaReceiptNumber` (the `break`
makes the first match win) storing its `value` (itself optional) as the
transaction code, then overwrite feedback with the raw payload. -/
def acceptUpdate (cb : CallbackRequest) (t : Transaction) (md : CallbackMetadata) :
    Transaction :=
  let t1 := { t with status := TransactionStatus.ACCEPTED }
  let t2 :=
    match md.item.find? (fun it => it.name = "MpesaReceiptNumber") with
    | some it => { t1 with transaction_code := it.value }
    | none => t1
  { t2 with feedback := cb.dict }

/-- The failed-result update (`src/lnmo.py` lines 276 and 279): set status
`REJECTED` and overwrite feedback with the raw payload. -/
def rejectUpdate (cb : CallbackRequest) (t : Transaction) : Transaction :=
  { t with status := TransactionStatus.REJECTED, feedback := cb.dict }

/-- The per-row outcome of `payment_callback`'s update block
(`src/lnmo.py` lines 266-279) on the matched transaction: `some` is the row
as it stands at the `db.commit()` on line 281; `none` means the block raised
before the commit — which happens exactly when `result_code == 0` and
`callbackMetadata` is `None`: the `hasattr` guard passes (the attribute
always exists) and `None.item` on line 271 raises `AttributeError`, caught
by the handler's `except` (line 288) with no commit, so the in-memory
status assignment of line 268 is never persisted. -/
def processCallbackTxn (cb : CallbackRequest) (t : Transaction) : Option Transaction :=
  if cb.body.stkCallback.resultCode = 0 then
    if hasattr_callbackMetadata cb.body.stkCallback then
      match cb.body.stkCallback.callbackMetadata with
      | none => none
      | some md => some (acceptUpdate cb t md)
    else
      -- unreachable: hasattr_callbackMetadata is constantly true; kept to
      -- mirror the source's guard, under which the metadata scan is skipped
      some { t with status := TransactionStatus.ACCEPTED, feedback := cb.dict }
  else
    some (rejectUpdate cb t)

/-- `payment_callback` (`src/lnmo.py` lines 247-290) on an
already-validated `CallbackRequest`: extract the checkout-request id and
result code, look the transaction up globally, answer the soft
"Transaction not found" envelope on a miss, otherwise apply the update
block; an exception inside it is caught and answered with the
"Callback processing failed" envelope, leaving the committed store
untouched.  All three envelopes are returned (not raised), hence always
HTTP 200. -/
def payment_callback (cb : CallbackRequest) (st : DB) : CallbackEnvelope × DB :=
  let checkout_request_id := cb.body.stkCallback.checkoutRequestID
  match findFirstTxn st.transactions checkout_request_id with
  | none => ({ status := "error", message := "Transaction not found" }, st)
  | some (i, t) =>
    match processCallbackTxn cb t with
    | none => ({ status := "error", message := "Callback processing failed" }, st)
    | some t1 =>
        ({ status := "success", message := "Callback processed" },
         { st with transactions := st.transactions.set i t1 })

/-- The full `POST /lnmo/callback` endpoint: pydantic validation of the raw
JSON body, then the handler.  `none` models FastAPI's 422 validation reply —
the handler never runs and the gateway receives an error status, not the
200-acknowledgement envelope. -/
def callback_endpoint (j : Json) (st : DB) : Option (CallbackEnvelope × DB) :=
  (parseCallbackRequest j).map (fun cb => payment_callback cb st)

/-- The failure modes of the `/lnmo/query` path (`src/lnmo.py` lines
214-245 and 148-179). -/
inductive QueryError where
  | transactionNotFound | tokenFailed | gatewayUnavailable
  deriving DecidableEq, Repr

/-- `db.query(Transaction).filter(transaction_id == ..., user_id == ...)
.first()` (`src/lnmo.py` lines 223-226). -/
def findUserTxn : List Transaction → String → Nat → Option Transaction
  | [], _, _ => none
  | t :: rest, cid, uid =>
    if t.transaction_id = some cid ∧ t.user_id = uid then some t
    else findUserTxn rest cid uid

/-- `query_transaction` (`src/lnmo.py` lines 214-245) composed with
`LNMORepository.query_transaction_status` (lines 148-179): ownership check,
token, gateway query; every branch returns the store unchanged because the
query path performs no `db.add`/`db.commit`. -/
def query_transaction (world : GatewayWorld) (checkout_request_id : String)
    (user_id : Nat) (st : DB) : Except QueryError Json × DB :=
  match findUserTxn st.transactions checkout_request_id user_id with
  | none => (.error .transactionNotFound, st)
  | some _t =>
    match world.accessToken with
    | none => (.error .tokenFailed, st)
    | some _token =>
      match world.queryResponse with
      | none => (.error .gatewayUnavailable, st)
      | some response => (.ok response, st)

/-- One ledger-touching operation of the reconciliation core. -/
inductive Op where
  | initiate (cfg : LNMOConfig) (world : GatewayWorld)
      (data : TransactionRequest) (user_id : Nat) : Op
  | callback (cb : CallbackRequest) : Op
  | query (world : GatewayWorld) (checkout_request_id : String) (user_id : Nat) : Op

/-- The committed store after running one operation. -/
def applyOp (st : DB) : Op → DB
  | .initiate cfg world data uid => (initiate_transaction cfg world data st uid).2
  | .callback cb => (payment_callback cb st).2
  | .query world cid uid => (query_transaction world cid uid st).2

/-! ## Concrete fixtures (used by witnesses and counterexamples) -/

/-- The repository's sandbox configuration defaults (`src/lnmo.py` lines 34-36). -/
def cfg0 : LNMOConfig :=
  { MPESA_LNMO_PASS_KEY := "bfb279f9aa9bdbcf158e97dd71a467cd2e0c893059b10f78e6b72ada1ed2c919"
    MPESA_LNMO_SHORT_CODE := "174379"
    CALLBACK_URL := "https://example.test/lnmo/callback" }

/-- A transaction row exactly as `initiate_transaction` creates it for order
42 of user 7, correlated to checkout request `ws_1`. -/
def txn0 : Transaction :=
  { id := 0, pid := 42, party_a := "254712345678", party_b := "174379"
    account_reference := "42", transaction_category := 0, transaction_type := 1
    transaction_channel := 1, transaction_aggregator := 0
    transaction_id := some "ws_1", transaction_amount := 100
    transaction_code := none, transaction_timestamp := "20240101120000"
    transaction_details := "Payment for order 42"
    feedback := Json.null, status := TransactionStatus.PROCESSING, user_id := 7 }

/-- A store holding order 42 (owned by user 7) and the single pending
transaction `txn0`. -/
def st0 : DB := { orders := [{ order_id := 42, user_id := 7 }], transactions := [txn0] }

/-- A matching success callback that carries no metadata
(`CallbackMetadata` omitted, hence `None`). -/
def cbNoMd : CallbackRequest :=
  { body := { stkCallback :=
    { merchantRequestID := "m1", checkoutRequestID := "ws_1", resultCode := 0
      resultDesc := "ok", callbackMetadata := none } } }

/-- Metadata carrying a receipt number (preceded by an unrelated item, so
first-match order matters). -/
def mdOk : CallbackMetadata :=
  { item := [ { name := "Amount", value := some "100" },
              { name := "MpesaReceiptNumber", value := some "QWE123" } ] }

/-- A matching success callback carrying `mdOk`. -/
def cbOk : CallbackRequest :=
  { body := { stkCallback :=
    { merchantRequestID := "m1", checkoutRequestID := "ws_1", resultCode := 0
      resultDesc := "ok", callbackMetadata := some mdOk } } }

/-- A matching failure callback (nonzero result code). -/
def cbRej : CallbackRequest :=
  { body := { stkCallback :=
    { merchantRequestID := "m1", checkoutRequestID := "ws_1", resultCode := 1
      resultDesc := "cancelled", callbackMetadata := none } } }

/-- `txn0` after a terminal ACCEPTED outcome. -/
def txnAccepted : Transaction := { txn0 with status := TransactionStatus.ACCEPTED }

/-- A store whose only transaction is already terminal (`ACCEPTED`). -/
def stAccepted : DB := { orders := st0.orders, transactions := [txnAccepted] }

/-- The row `payment_callback` commits for `cbRej` against `txn0`. -/
def rejTxn0 : Transaction :=
  { txn0 with status := TransactionStatus.REJECTED, feedback := cbRej.dict }

/-- A gateway that accepts everything: token granted, push accepted with
checkout request `ws_9`, query answered, clock frozen. -/
def world0 : GatewayWorld :=
  { accessToken := some "tok"
    pushResponse := some (Json.obj
      [("MerchantRequestID", Json.str "m9"),
       ("CheckoutRequestID", Json.str "ws_9"),
       ("ResponseCode", Json.str "0")])
    queryResponse := some (Json.obj [("ResultCode", Json.str "0")])
    now := fun _ => "20240101120000" }

/-- `POST /lnmo/transact` body paying order 42. -/
def data0 : TransactionRequest :=
  { amount := 100, phone_number := "254712345678", order_id := 42 }

/-- The canonical gateway callback body, keyed exactly as the wire contract
prescribes (`Body`, `stkCallback`, `CheckoutRequestID`, `ResultCode`,
`CallbackMetadata`, `Item`, `Name`, `Value`). -/
def canonicalCallbackJson : Json :=
  Json.obj [("Body", Json.obj [("stkCallback", Json.obj [
     ("MerchantRequestID", Json.str "29115-34620561-1"),
     ("CheckoutRequestID", Json.str "ws_1"),
     ("ResultCode", Json.num 0),
     ("ResultDesc", Json.str "The service request is processed successfully."),
     ("CallbackMetadata", Json.obj [("Item", Json.arr [Json.obj
        [("Name", Json.str "MpesaReceiptNumber"),
         ("Value", Json.str "NLJ7RT61SV")]])])])])]

/-- The same callback re-keyed by the pydantic models' declared field names
(`body`, `checkoutRequestID`, ...). -/
def camelCallbackJson : Json :=
  Json.obj [("body", Json.obj [("stkCallback", Json.obj [
     ("merchantRequestID", Json.str "29115-34620561-1"),
     ("checkoutRequestID", Json.str "ws_1"),
     ("resultCode", Json.num 0),
     ("resultDesc", Json.str "The service request is processed successfully."),
     ("callbackMetadata", Json.obj [("item", Json.arr [Json.obj
        [("name", Json.str "MpesaReceiptNumber"),
         ("value", Json.str "NLJ7RT61SV")]])])])])]

/-! ## Helper lemmas -/

/-- A hit of the ledger lookup is a real row of the store. -/
theorem findFirstTxn_getElem (l : List Transaction) (cid : String) (i : Nat)
    (t : Transaction) (h : findFirstTxn l cid = some (i, t)) :
    l[i]? = some t := by
  induction l generalizing i with
  | nil => simp [findFirstTxn] at h
  | cons x xs ih =>
    by_cases hx : x.transaction_id = some cid
    · simp only [findFirstTxn, if_pos hx, Option.some.injEq, Prod.mk.injEq] at h
      obtain ⟨hi, ht⟩ := h
      subst ht
      simp [← hi]
    · rw [findFirstTxn, if_neg hx] at h
      cases hfx : findFirstTxn xs cid with
      | none => rw [hfx] at h; exact absurd h (by simp)
      | some p =>
        obtain ⟨j, u⟩ := p
        rw [hfx] at h
        simp only [Option.some.injEq, Prod.mk.injEq] at h
        obtain ⟨hi, ht⟩ := h
        subst ht
        have := ih j hfx
        simp [← hi, this]

/-- Updating the hit row in place (with an update that keeps the
checkout-request correlation key) moves the lookup to the updated row at the
same position. -/
theorem findFirstTxn_set (l : List Transaction) (cid : String) (i : Nat)
    (t t' : Transaction) (h : findFirstTxn l cid = some (i, t))
    (hid : t'.transaction_id = t.transaction_id) :
    findFirstTxn (l.set i t') cid = some (i, t') := by
  induction l generalizing i with
  | nil => simp [findFirstTxn] at h
  | cons x xs ih =>
    by_cases hx : x.transaction_id = some cid
    · simp only [findFirstTxn, if_pos hx, Option.some.injEq, Prod.mk.injEq] at h
      obtain ⟨hi, ht⟩ := h
      subst ht
      have h0 : i = 0 := hi.symm
      subst h0
      have ht' : t'.transaction_id = some cid := by rw [hid]; exact hx
      simp [List.set, findFirstTxn, if_pos ht']
    · rw [findFirstTxn, if_neg hx] at h
      cases hfx : findFirstTxn xs cid with
      | none => rw [hfx] at h; exact absurd h (by simp)
      | some p =>
        obtain ⟨j, u⟩ := p
        rw [hfx] at h
        simp only [Option.some.injEq, Prod.mk.injEq] at h
        obtain ⟨hi, ht⟩ := h
        subst ht
        have hij : i = j + 1 := hi.symm
        subst hij
        have := ih j hfx
        simp [List.set, findFirstTxn, if_neg hx, this]

/-- When no row carries the checkout-request id, the lookup misses. -/
theorem findFirstTxn_eq_none (l : List Transaction) (cid : String)
    (h : ∀ t ∈ l, t.transaction_id ≠ some cid) :
    findFirstTxn l cid = none := by
  induction l with
  | nil => rfl
  | cons x xs ih =>
    have hx : ¬ x.transaction_id = some cid := h x (by simp)
    rw [findFirstTxn, if_neg hx, ih (fun t ht => h t (by simp [ht]))]

/-- The update block never touches the correlation key. -/
theorem processCallbackTxn_transaction_id (cb : CallbackRequest)
    (t t1 : Transaction) (h : processCallbackTxn cb t = some t1) :
    t1.transaction_id = t.transaction_id := by
  unfold processCallbackTxn hasattr_callbackMetadata at h
  by_cases hrc : cb.body.stkCallback.resultCode = 0
  · rw [if_pos hrc, if_pos rfl] at h
    cases hmd : cb.body.stkCallback.callbackMetadata with
    | none => rw [hmd] at h; exact absurd h (by simp)
    | some md =>
      rw [hmd] at h
      simp only [Option.some.injEq] at h
      subst h
      unfold acceptUpdate
      cases hit : md.item.find? (fun it => it.name = "MpesaReceiptNumber") <;> simp [hit]
  · rw [if_neg hrc] at h
    simp only [Option.some.injEq] at h
    subst h
    rfl

/-- A committed update block leaves the row `ACCEPTED` or `REJECTED`. -/
theorem processCallbackTxn_status (cb : CallbackRequest)
    (t t1 : Transaction) (h : processCallbackTxn cb t = some t1) :
    t1.status = TransactionStatus.ACCEPTED ∨ t1.status = TransactionStatus.REJECTED := by
  unfold processCallbackTxn hasattr_callbackMetadata at h
  by_cases hrc : cb.body.stkCallback.resultCode = 0
  · rw [if_pos hrc, if_pos rfl] at h
    cases hmd : cb.body.stkCallback.callbackMetadata with
    | none => rw [hmd] at h; exact absurd h (by simp)
    | some md =>
      rw [hmd] at h
      simp only [Option.some.injEq] at h
      subst h
      left
      unfold acceptUpdate
      cases hit : md.item.find? (fun it => it.name = "MpesaReceiptNumber") <;> simp [hit]
  · rw [if_neg hrc] at h
    simp only [Option.some.injEq] at h
    subst h
    right
    rfl

/-- The successful-result update is an absorbing overwrite: applying it to
its own output reproduces the output. -/
theorem acceptUpdate_idem (cb : CallbackRequest) (t : Transaction)
    (md : CallbackMetadata) :
    acceptUpdate cb (acceptUpdate cb t md) md = acceptUpdate cb t md := by
  unfold acceptUpdate
  cases hit : md.item.find? (fun it => it.name = "MpesaReceiptNumber") <;> simp [hit]

/-- A committed update block is an absorbing overwrite: re-running it on the
committed row commits the identical row. -/
theorem processCallbackTxn_idem (cb : CallbackRequest)
    (t t1 : Transaction) (h : processCallbackTxn cb t = some t1) :
    processCallbackTxn cb t1 = some t1 := by
  unfold processCallbackTxn hasattr_callbackMetadata at *
  by_cases hrc : cb.body.stkCallback.resultCode = 0
  · rw [if_pos hrc, if_pos rfl] at h ⊢
    cases hmd : cb.body.stkCallback.callbackMetadata with
    | none => rw [hmd] at h; exact absurd h (by simp)
    | some md =>
      rw [hmd] at h
      simp only [Option.some.injEq] at h
      subst h
      simp [acceptUpdate_idem]
  · rw [if_neg hrc] at h ⊢
    simp only [Option.some.injEq] at h
    subst h
    unfold rejectUpdate
    rfl

/-- The query path commits nothing in any branch. -/
theorem query_transaction_snd (world : GatewayWorld) (cid : String)
    (uid : Nat) (st : DB) : (query_transaction world cid uid st).2 = st := by
  unfold query_transaction
  split
  · rfl
  · split
    · rfl
    · split
      · rfl
      · rfl

/-- An index into a one-element extension hits either the old list or the
new last element. -/
theorem getElem_append_singleton_cases (l : List α) (a : α) (i : Nat) (x : α)
    (h : (l ++ [a])[i]? = some x) :
    (i < l.length ∧ l[i]? = some x) ∨ (i = l.length ∧ x = a) := by
  by_cases hi : i < l.length
  · left
    exact ⟨hi, by rwa [List.getElem?_append_left hi] at h⟩
  · right
    have hle : l.length ≤ i := Nat.le_of_not_lt hi
    rw [List.getElem?_append_right hle] at h
    cases hk : i - l.length with
    | zero =>
      rw [hk] at h
      simp only [List.getElem?_cons_zero, Option.some.injEq] at h
      exact ⟨Nat.le_antisymm (Nat.le_of_sub_eq_zero hk) hle, h.symm⟩
    | succ n =>
      rw [hk] at h
      simp at h

/-! ## Claims -/

/-- C5: a callback whose checkout-request identifier matches no stored
transaction returns the soft "Transaction not found" acknowledgement
envelope (with HTTP 200, since the handler returns rather than raises) and
leaves the committed store untouched. -/
theorem C5_unmatched_callback_soft_ack (cb : CallbackRequest) (st : DB)
    (h : ∀ t ∈ st.transactions,
        t.transaction_id ≠ some cb.body.stkCallback.checkoutRequestID) :
    payment_callback cb st
      = ({ status := "error", message := "Transaction not found" }, st) := by
  have hf := findFirstTxn_eq_none st.transactions _ h
  simp [payment_callback, hf]

/-- Witness for C5 at a concrete input: an empty ledger. -/
theorem C5_witness :
    (∀ t ∈ (DB.mk [] []).transactions,
        t.transaction_id ≠ some cbOk.body.stkCallback.checkoutRequestID)
    ∧ payment_callback cbOk (DB.mk [] [])
        = ({ status := "error", message := "Transaction not found" }, DB.mk [] []) :=
  ⟨by simp, C5_unmatched_callback_soft_ack cbOk (DB.mk [] []) (by simp)⟩

/-- C10: a matched success callback (result code 0) whose
`callbackMetadata` is `None` makes the handler return the
"Callback processing failed" error envelope and commit nothing — the
`hasattr` guard passes because the declared pydantic field always exists,
and the attribute access on `None` raises before the commit, so the
committed store (status, transaction code and feedback included) is
unchanged. -/
theorem C10_success_without_metadata_no_commit (cb : CallbackRequest) (st : DB)
    (i : Nat) (t : Transaction)
    (hfind : findFirstTxn st.transactions cb.body.stkCallback.checkoutRequestID
        = some (i, t))
    (hrc : cb.body.stkCallback.resultCode = 0)
    (hmd : cb.body.stkCallback.callbackMetadata = none) :
    payment_callback cb st
      = ({ status := "error", message := "Callback processing failed" }, st) := by
  have hp : processCallbackTxn cb t = none := by
    unfold processCallbackTxn hasattr_callbackMetadata
    rw [if_pos hrc, if_pos rfl, hmd]
  simp [payment_callback, hfind, hp]

/-- Witness for C10 at a concrete input: the pending transaction `txn0` and
the metadata-free success callback `cbNoMd`. -/
theorem C10_witness :
    findFirstTxn st0.transactions cbNoMd.body.stkCallback.checkoutRequestID
        = some (0, txn0)
    ∧ cbNoMd.body.stkCallback.resultCode = 0
    ∧ cbNoMd.body.stkCallback.callbackMetadata = none
    ∧ payment_callback cbNoMd st0
        = ({ status := "error", message := "Callback processing failed" }, st0) :=
  ⟨rfl, rfl, rfl, C10_success_without_metadata_no_commit cbNoMd st0 0 txn0 rfl rfl rfl⟩

/-- C7: on a matched success callback carrying a metadata item list, the
committed transaction code is the value of the first item named
`MpesaReceiptNumber` (the loop breaks at the first match), and when no such
item exists the transaction code is left as it was — null for a row the
initiate path created. -/
theorem C7_receipt_number_first_match (cb : CallbackRequest) (st : DB)
    (i : Nat) (t : Transaction) (md : CallbackMetadata)
    (hfind : findFirstTxn st.transactions cb.body.stkCallback.checkoutRequestID
        = some (i, t))
    (hrc : cb.body.stkCallback.resultCode = 0)
    (hmd : cb.body.stkCallback.callbackMetadata = some md) :
    ∃ t1, (payment_callback cb st).2.transactions[i]? = some t1
      ∧ t1.transaction_code =
          (match md.item.find? (fun it => it.name = "MpesaReceiptNumber") with
           | some it => it.value
           | none => t.transaction_code) := by
  have hp : processCallbackTxn cb t = some (acceptUpdate cb t md) := by
    unfold processCallbackTxn hasattr_callbackMetadata
    rw [if_pos hrc, if_pos rfl, hmd]
  have hlen : i < st.transactions.length := by
    rcases List.getElem?_eq_some_iff.mp (findFirstTxn_getElem _ _ _ _ hfind) with ⟨hl, _⟩
    exact hl
  refine ⟨acceptUpdate cb t md, ?_, ?_⟩
  · simp only [payment_callback, hfind, hp]
    exact List.getElem?_set_eq_of_lt _ hlen
  · unfold acceptUpdate
    cases hit : md.item.find? (fun it => it.name = "MpesaReceiptNumber") <;> simp [hit]

/-- Witness for C7 at a concrete input: `cbOk` carries an unrelated item
followed by the receipt item, and the committed code is the receipt value. -/
theorem C7_witness :
    findFirstTxn st0.transactions cbOk.body.stkCallback.checkoutRequestID
        = some (0, txn0)
    ∧ cbOk.body.stkCallback.resultCode = 0
    ∧ cbOk.body.stkCallback.callbackMetadata = some mdOk
    ∧ (∃ t1, (payment_callback cbOk st0).2.transactions[0]? = some t1
        ∧ t1.transaction_code =
            (match mdOk.item.find? (fun it => it.name = "MpesaReceiptNumber") with
             | some it => it.value
             | none => txn0.transaction_code)) :=
  ⟨rfl, rfl, rfl, C7_receipt_number_first_match cbOk st0 0 txn0 mdOk rfl rfl rfl⟩

/-- C8: handling the identical callback payload twice commits the same
final store as handling it once — the second application is a no-op
overwrite (status, transaction code and feedback already carry the values
it writes again; the miss and the exception path commit nothing at all). -/
theorem C8_callback_idempotent (cb : CallbackRequest) (st : DB) :
    (payment_callback cb (payment_callback cb st).2).2
      = (payment_callback cb st).2 := by
  cases hf : findFirstTxn st.transactions cb.body.stkCallback.checkoutRequestID with
  | none => simp [payment_callback, hf]
  | some p =>
    obtain ⟨i, t⟩ := p
    cases hp : processCallbackTxn cb t with
    | none => simp [payment_callback, hf, hp]
    | some t1 =>
      have hid : t1.transaction_id = t.transaction_id :=
        processCallbackTxn_transaction_id _ _ _ hp
      have hf2 : findFirstTxn (st.transactions.set i t1)
          cb.body.stkCallback.checkoutRequestID = some (i, t1) :=
        findFirstTxn_set _ _ _ _ _ hf hid
      have hp2 : processCallbackTxn cb t1 = some t1 :=
        processCallbackTxn_idem _ _ _ hp
      simp [payment_callback, hf, hp, hf2, hp2, List.set_set]

/-- C1: the code evaluated at the failing input.  A matched success callback
(result code 0) whose `callbackMetadata` is absent does NOT transition the
transaction to ACCEPTED: the handler answers the "Callback processing
failed" error envelope, the committed store is unchanged, and the status is
still PROCESSING (and the feedback was not overwritten), contradicting the
claim that every matched result-code-0 callback yields ACCEPTED. -/
theorem C1_success_callback_without_metadata_not_accepted :
    payment_callback cbNoMd st0
      = ({ status := "error", message := "Callback processing failed" }, st0)
    ∧ (payment_callback cbNoMd st0).2.transactions.map Transaction.status
      = [TransactionStatus.PROCESSING] := ⟨rfl, rfl⟩

/-- C2 counterexample: a transaction already in the terminal status
ACCEPTED is overwritten to REJECTED by a later matching callback with a
nonzero result code — terminal statuses are not immutable. -/
theorem C2_terminal_status_overwritten :
    stAccepted.transactions.map Transaction.status = [TransactionStatus.ACCEPTED]
    ∧ (applyOp stAccepted (Op.callback cbRej)).transactions.map Transaction.status
      = [TransactionStatus.REJECTED] := ⟨rfl, rfl⟩

/-- C2 amended: across every initiate, callback and query operation, a
status can only change to ACCEPTED or REJECTED (and only the callback
handler changes one), and every newly created row starts at PROCESSING;
terminal statuses are however not immutable — a later callback may
overwrite one terminal status with the other. -/
theorem C2_status_evolution (st : DB) (op : Op) (i : Nat) (t' : Transaction)
    (h : (applyOp st op).transactions[i]? = some t') :
    (∃ t, st.transactions[i]? = some t ∧
        (t'.status = t.status ∨ t'.status = TransactionStatus.ACCEPTED ∨
          t'.status = TransactionStatus.REJECTED))
    ∨ t'.status = TransactionStatus.PROCESSING := by
  cases op with
  | query world cid uid =>
    rw [show applyOp st (Op.query world cid uid)
          = (query_transaction world cid uid st).2 from rfl,
        query_transaction_snd] at h
    exact Or.inl ⟨t', h, Or.inl rfl⟩
  | initiate cfg world data uid =>
    cases horder : findOrder st.orders data.order_id uid with
    | none =>
      simp only [applyOp, initiate_transaction, horder] at h
      exact Or.inl ⟨t', h, Or.inl rfl⟩
    | some o =>
      cases htok : world.accessToken with
      | none =>
        simp only [applyOp, initiate_transaction, horder, htok] at h
        exact Or.inl ⟨t', h, Or.inl rfl⟩
      | some tk =>
        cases hresp : world.pushResponse with
        | none =>
          simp only [applyOp, initiate_transaction, horder, htok, hresp] at h
          exact Or.inl ⟨t', h, Or.inl rfl⟩
        | some resp =>
          simp only [applyOp, initiate_transaction, horder, htok, hresp] at h
          rcases getElem_append_singleton_cases _ _ _ _ h with ⟨_, hget⟩ | ⟨_, hx⟩
          · exact Or.inl ⟨t', hget, Or.inl rfl⟩
          · subst hx
            exact Or.inr rfl
  | callback cb =>
    cases hf : findFirstTxn st.transactions cb.body.stkCallback.checkoutRequestID with
    | none =>
      simp only [applyOp, payment_callback, hf] at h
      exact Or.inl ⟨t', h, Or.inl rfl⟩
    | some p =>
      obtain ⟨j, t0⟩ := p
      cases hp : processCallbackTxn cb t0 with
      | none =>
        simp only [applyOp, payment_callback, hf, hp] at h
        exact Or.inl ⟨t', h, Or.inl rfl⟩
      | some t1 =>
        simp only [applyOp, payment_callback, hf, hp] at h
        by_cases hij : j = i
        · subst hij
          have hjlen : j < st.transactions.length := by
            rcases List.getElem?_eq_some_iff.mp
              (findFirstTxn_getElem _ _ _ _ hf) with ⟨hl, _⟩
            exact hl
          rw [List.getElem?_set_eq_of_lt _ hjlen] at h
          simp only [Option.some.injEq] at h
          subst h
          exact Or.inl ⟨t0, findFirstTxn_getElem _ _ _ _ hf,
            Or.inr (processCallbackTxn_status _ _ _ hp)⟩
        · rw [List.getElem?_set_ne hij] at h
          exact Or.inl ⟨t', h, Or.inl rfl⟩

/-- Witness for C2's amended statement at a concrete input: the committed
row after `cbRej` against `st0` is `rejTxn0`. -/
theorem C2_status_evolution_witness :
    (applyOp st0 (Op.callback cbRej)).transactions[0]? = some rejTxn0
    ∧ ((∃ t, st0.transactions[0]? = some t ∧
        (rejTxn0.status = t.status ∨ rejTxn0.status = TransactionStatus.ACCEPTED ∨
          rejTxn0.status = TransactionStatus.REJECTED))
      ∨ rejTxn0.status = TransactionStatus.PROCESSING) :=
  ⟨rfl, C2_status_evolution st0 (Op.callback cbRej) 0 rejTxn0 rfl⟩

/-- C3: when the referenced order exists and belongs to the caller, the
access token was granted, and the gateway accepted the push with a
checkout-request identifier, initiate commits exactly one new transaction
row, with status PROCESSING and a non-null checkout-request identifier
equal to the one returned to the caller. -/
theorem C3_initiate_persists_processing_row (cfg : LNMOConfig)
    (world : GatewayWorld) (data : TransactionRequest) (st : DB) (uid : Nat)
    (o : Order) (tk : String) (resp : Json) (cid : String)
    (horder : findOrder st.orders data.order_id uid = some o)
    (htok : world.accessToken = some tk)
    (hresp : world.pushResponse = some resp)
    (hcid : resp.getStr "CheckoutRequestID" = some cid) :
    ∃ res t,
      initiate_transaction cfg world data st uid
        = (Except.ok res, { st with transactions := st.transactions ++ [t] })
      ∧ res.checkout_request_id = some cid
      ∧ t.transaction_id = some cid
      ∧ t.status = TransactionStatus.PROCESSING := by
  simp only [initiate_transaction, horder, htok, hresp]
  exact ⟨_, _, rfl, hcid, hcid, rfl⟩

/-- Witness for C3 at a concrete input: `world0` accepts the push with
checkout request `ws_9`. -/
theorem C3_witness :
    findOrder st0.orders data0.order_id 7 = some { order_id := 42, user_id := 7 }
    ∧ world0.accessToken = some "tok"
    ∧ (∃ res t, initiate_transaction cfg0 world0 data0 st0 7
        = (Except.ok res, { st0 with transactions := st0.transactions ++ [t] })
      ∧ res.checkout_request_id = some "ws_9"
      ∧ t.transaction_id = some "ws_9"
      ∧ t.status = TransactionStatus.PROCESSING) :=
  ⟨rfl, rfl,
    C3_initiate_persists_processing_row cfg0 world0 data0 st0 7 _ _ _ _
      rfl rfl rfl rfl⟩

/-- C4: initiate is atomic — every run either commits exactly one new row
and returns the success response with it, or returns an error with the
store untouched; in particular a missing or foreign order fails with the
order-not-found error before anything is persisted. -/
theorem C4_initiate_atomicity (cfg : LNMOConfig) (world : GatewayWorld)
    (data : TransactionRequest) (st : DB) (uid : Nat) :
    ((∃ res t, initiate_transaction cfg world data st uid
        = (Except.ok res, { st with transactions := st.transactions ++ [t] }))
      ∨ (∃ e, initiate_transaction cfg world data st uid = (Except.error e, st)))
    ∧ (findOrder st.orders data.order_id uid = none →
        initiate_transaction cfg world data st uid
          = (Except.error InitError.orderNotFound, st)) := by
  constructor
  · cases horder : findOrder st.orders data.order_id uid with
    | none =>
      right
      simp only [initiate_transaction, horder]
      exact ⟨_, rfl⟩
    | some o =>
      cases htok : world.accessToken with
      | none =>
        right
        simp only [initiate_transaction, horder, htok]
        exact ⟨_, rfl⟩
      | some tk =>
        cases hresp : world.pushResponse with
        | none =>
          right
          simp only [initiate_transaction, horder, htok, hresp]
          exact ⟨_, rfl⟩
        | some resp =>
          left
          simp only [initiate_transaction, horder, htok, hresp]
          exact ⟨_, _, rfl⟩
  · intro horder
    simp only [initiate_transaction, horder]

/-- Witness for C4 at a concrete input: paying for order 42 against an
empty store fails with the order-not-found error and persists nothing. -/
theorem C4_witness :
    findOrder (DB.mk [] []).orders data0.order_id 7 = none
    ∧ initiate_transaction cfg0 world0 data0 (DB.mk [] []) 7
        = (Except.error InitError.orderNotFound, DB.mk [] []) :=
  ⟨rfl, (C4_initiate_atomicity cfg0 world0 data0 (DB.mk [] []) 7).2 rfl⟩

/-- C6: the code evaluated at the failing input.  The canonical gateway
callback shape — keyed `Body`, `CheckoutRequestID`, `ResultCode`,
`CallbackMetadata`, `Item`, `Name`, `Value` exactly as the wire contract
prescribes — fails pydantic validation for every store state, because the
models declare the case-sensitive field names `body`, `checkoutRequestID`,
`resultCode`, ... with no aliases; the request is rejected with a 422
validation error and never reaches `payment_callback`, contradicting the
claim that every canonical payload passes validation and is acknowledged
with HTTP 200. -/
theorem C6_canonical_payload_rejected (st : DB) :
    callback_endpoint canonicalCallbackJson st = none := rfl

/-- Sanity check that the validation model is not vacuously rejecting: the
same payload keyed by the models' declared field names parses. -/
theorem camel_payload_parses :
    parseCallbackRequest camelCallbackJson
      = some { body := { stkCallback :=
          { merchantRequestID := "29115-34620561-1"
            checkoutRequestID := "ws_1"
            resultCode := 0
            resultDesc := "The service request is processed successfully."
            callbackMetadata := some { item :=
              [{ name := "MpesaReceiptNumber", value := some "NLJ7RT61SV" }] } } } } :=
  rfl

/-- A clock that crosses a second boundary between the first and second
`datetime.now()` call of the push-payload construction. -/
def world9 : GatewayWorld :=
  { accessToken := some "tok", pushResponse := none, queryResponse := none
    now := fun n => if n = 0 then "20231231235959" else "20240101000000" }

/-- C9: the code evaluated at the failing input.  `generate_password` reads
the clock itself (call 0) while the payload's `Timestamp` field is a second,
separate clock read (call 1); when the two reads straddle a second boundary
the timestamp embedded in the derived password differs from the `Timestamp`
field sent in the same payload, contradicting the claim that they are
identical for every push request. -/
theorem C9_password_timestamp_mismatch :
    (buildPushPayload cfg0 world9 data0).password
        = base64Encode (cfg0.MPESA_LNMO_SHORT_CODE ++ cfg0.MPESA_LNMO_PASS_KEY
            ++ "20231231235959")
    ∧ (buildPushPayload cfg0 world9 data0).timestamp = "20240101000000"
    ∧ "20231231235959" ≠ (buildPushPayload cfg0 world9 data0).timestamp :=
  ⟨rfl, rfl, by decide⟩
